import Mathlib

set_option maxRecDepth 10000

/-!
Verification of the coding-standard provisioning tool.

The development shallowly embeds the two source modules that carry the
logic under scrutiny:

* `src/api/codacy.py` — the API client: the shared request primitive
  `_make_request`, the endpoint builders, and the cursor-pagination loop
  of `get_patterns`;
* `src/main.py` — the orchestration: `process_patterns` (severity filter
  and 500-element batching) and `create_standard` (the workflow with
  dry-run handling, per-tool error isolation and exit codes).

Stateful behaviour (HTTP calls, logging, `sys.exit`) is embedded as an
explicit event trace: the server is an oracle record and each workflow
function returns the list of API calls and log lines it emits, together
with control-flow information (raised / returned early / completed) and
the final exit code.  The pagination loop of `get_patterns` may diverge,
so it is embedded with explicit fuel and a completion flag.
-/

/-! ## Pattern data model (dictionaries of `main.py` / the patterns API).

A fetched pattern is a dictionary; `process_patterns` reads
`pattern.get("patternDefinition", {})`, then `.get("id")` and
`.get("severityLevel", "")` from it.  Missing keys are `Option`. -/

/-- Embedding of the "patternDefinition" sub-dictionary of a fetched
pattern: the two keys `process_patterns` reads, each possibly absent. -/
structure PatternDefinition where
  id : Option String
  severityLevel : Option String
deriving DecidableEq, Repr

/-- Embedding of a fetched pattern dictionary: only the
`patternDefinition` key is read by the orchestrator. -/
structure Pattern where
  patternDefinition : Option PatternDefinition
deriving DecidableEq, Repr

/-- Entry appended to `patterns_to_update` in `process_patterns`:
`{"id": pattern_id, "enabled": False}`. -/
structure PatternUpdate where
  id : Option String
  enabled : Bool
deriving DecidableEq, Repr

/-- Embedding of Python `str.lower()`, character by character (the
severity levels involved are ASCII). -/
def pyLower (s : String) : String :=
  ⟨s.data.map Char.toLower⟩

/-- Embedding of `pattern.get("patternDefinition", {}).get("severityLevel", "").lower()`
(lines 29–31 of `main.py`): a missing definition or missing severity key
yields the empty string. -/
def severityOf (p : Pattern) : String :=
  pyLower (((p.patternDefinition.getD ⟨none, none⟩).severityLevel).getD "")

/-- Embedding of the selection test `severity in ["info", "minor"]`
(line 33 of `main.py`). -/
def selectPattern (p : Pattern) : Bool :=
  (["info", "minor"] : List String).contains (severityOf p)

/-- Embedding of the `{"id": pattern_id, "enabled": False}` entry built
for a selected pattern (lines 34–37 of `main.py`). -/
def updateEntry (p : Pattern) : PatternUpdate :=
  { id := (p.patternDefinition.getD ⟨none, none⟩).id, enabled := false }

/-- The `patterns_to_update` list built by the selection loop of
`process_patterns`: the update entries of the selected patterns, in
fetch order. -/
def patternsToUpdate (ps : List Pattern) : List PatternUpdate :=
  (ps.filter selectPattern).map updateEntry

/-! ## Batching (`for i in range(0, len(patterns_to_update), 500)`).

Python `range(0, N, 500)` enumerates `0, 500, 1000, …` below `N`, hence
`(N + 499) / 500` indices (natural division), and the slice
`l[i : i + 500]` is `(l.drop i).take 500`. -/

/-- Embedding of the batch slicing of `process_patterns` (lines 46–47 of
`main.py`): the slices `l[500*j : 500*j + 500]` for `j` ranging over
`range(0, len(l), 500)`. -/
def pyBatches {α : Type} (l : List α) : List (List α) :=
  (List.range ((l.length + 499) / 500)).map (fun j => (l.drop (500 * j)).take 500)

theorem pyBatches_length {α : Type} (l : List α) :
    (pyBatches l).length = (l.length + 499) / 500 := by
  simp [pyBatches]

theorem pyBatches_size_le {α : Type} (l : List α) :
    ∀ b ∈ pyBatches l, b.length ≤ 500 := by
  intro b hb
  obtain ⟨j, _, rfl⟩ := List.mem_map.mp hb
  simp [List.length_take]

theorem pyBatches_flatten_bounded {α : Type} :
    ∀ (n : Nat) (l : List α), l.length ≤ n → (pyBatches l).flatten = l := by
  intro n
  induction n with
  | zero =>
    intro l h
    have hl : l = [] := List.length_eq_zero.mp (Nat.le_zero.mp h)
    subst hl
    simp [pyBatches]
  | succ n ih =>
    intro l h
    by_cases hl : l = []
    · subst hl; simp [pyBatches]
    · have hpos : 0 < l.length := List.length_pos.mpr hl
      obtain ⟨k, hk⟩ : ∃ k, (l.length + 499) / 500 = k + 1 :=
        ⟨(l.length + 499) / 500 - 1, by omega⟩
      rw [pyBatches, hk, List.range_succ_eq_map, List.map_cons, List.map_map]
      have h2 : (List.range k).map
          ((fun j => (l.drop (500 * j)).take 500) ∘ Nat.succ)
          = pyBatches (l.drop 500) := by
        rw [pyBatches]
        have hk' : ((l.drop 500).length + 499) / 500 = k := by
          rw [List.length_drop]; omega
        rw [hk']
        refine List.map_congr_left ?_
        intro j hj
        simp only [Function.comp, List.drop_drop]
        have harith : 500 * Nat.succ j = 500 + 500 * j := by omega
        rw [harith]
      rw [h2]
      have hrec : (pyBatches (l.drop 500)).flatten = l.drop 500 := by
        refine ih (l.drop 500) ?_
        rw [List.length_drop]; omega
      simp only [List.flatten_cons, hrec, Nat.mul_zero, List.drop_zero,
        List.take_append_drop]

theorem pyBatches_flatten {α : Type} (l : List α) :
    (pyBatches l).flatten = l :=
  pyBatches_flatten_bounded l.length l (Nat.le_refl _)

theorem pyBatches_sum_sizes {α : Type} (l : List α) :
    ((pyBatches l).map List.length).sum = l.length := by
  rw [← List.length_flatten, pyBatches_flatten]

/-! ## Pagination (`get_patterns`, lines 139–174 of `codacy.py`).

The loop keeps a string `cursor` starting at `""`; each iteration sends
the request with the `cursor` query parameter present only when the
string is non-empty (`if cursor:`), appends `response.get("data", [])`,
and continues exactly when the `pagination` block contains a `cursor`
key, in which case the string is replaced by the value of that key.

The server is an oracle mapping the optional `cursor` request parameter
to a response; `some v` in `pagCursor` means the pagination block has a
`cursor` key with value `v` (possibly `""`), `none` means the key is
absent.  The loop is embedded with fuel: it returns the accumulated
data, the trace of requests issued (each recorded as the optional
`cursor` parameter sent), and `true` when it exited the `while` loop
within the fuel. -/

/-- Response to one page request, as read by `get_patterns`: the `data`
array and the `cursor` entry of the `pagination` block (`some v` when
the key is present with value `v`, `none` when the key is absent). -/
structure PageResponse (α : Type) where
  data : List α
  pagCursor : Option String
deriving Repr

/-- Embedding of the request-parameter construction of `get_patterns`:
the `cursor` query parameter is attached only when the cursor string is
truthy (`if cursor: params["cursor"] = cursor`). -/
def reqOf (cursor : String) : Option String :=
  if cursor = "" then none else some cursor

/-- Fuel-indexed embedding of the `while has_next_page` loop of
`get_patterns`: returns the concatenated `data`, the request trace, and
whether the loop exited (the response lacked a `cursor` key) within the
given fuel. -/
def getPatternsLoop {α : Type} (srv : Option String → PageResponse α) :
    Nat → String → List α × List (Option String) × Bool
  | 0, _ => ([], [], false)
  | fuel + 1, cursor =>
    let req := reqOf cursor
    let resp := srv req
    match resp.pagCursor with
    | none => (resp.data, [req], true)
    | some c =>
      let rest := getPatternsLoop srv fuel c
      (resp.data ++ rest.1, req :: rest.2.1, rest.2.2)

/-- Embedding of `get_patterns`: the loop started with `cursor = ""`. -/
def get_patterns {α : Type} (srv : Option String → PageResponse α)
    (fuel : Nat) : List α × List (Option String) × Bool :=
  getPatternsLoop srv fuel ""

/-- Cursor token used by the model page server for page `i`: a string
of `i` characters, so page `0` corresponds to the empty (absent) cursor
and every later page to a non-empty, injectively decodable token. -/
def cursorFor (i : Nat) : String :=
  ⟨List.replicate i 'c'⟩

/-- Model of an arbitrary finite sequence of paginated responses: page
`i` of `ps` is served for the request carrying cursor token
`cursorFor i` (page `0` for the cursor-less request), and its pagination
block carries the cursor key exactly when a further page exists. -/
def pageServer {α : Type} (ps : List (List α)) (req : Option String) :
    PageResponse α :=
  let i := match req with
    | none => 0
    | some s => s.length
  { data := (ps.drop i).headD []
    pagCursor := if i + 1 < ps.length then some (cursorFor (i + 1)) else none }

theorem cursorFor_zero : cursorFor 0 = "" := rfl

theorem cursorFor_ne_empty (n : Nat) : cursorFor (n + 1) ≠ "" := by
  intro h
  have hd : (cursorFor (n + 1)).data = ("" : String).data := by rw [h]
  simp [cursorFor, List.replicate_succ] at hd

theorem cursorFor_length (i : Nat) : (cursorFor i).length = i := by
  simp [cursorFor, String.length]

theorem pageServer_at {α : Type} (ps : List (List α)) (i : Nat) :
    pageServer ps (reqOf (cursorFor i))
      = { data := (ps.drop i).headD []
          pagCursor := if i + 1 < ps.length then some (cursorFor (i + 1)) else none } := by
  cases i with
  | zero => rfl
  | succ n =>
    rw [reqOf, if_neg (cursorFor_ne_empty n)]
    simp [pageServer, cursorFor_length]

theorem getPatternsLoop_succ {α : Type} (srv : Option String → PageResponse α)
    (fuel : Nat) (cursor : String) :
    getPatternsLoop srv (fuel + 1) cursor
      = match (srv (reqOf cursor)).pagCursor with
        | none => ((srv (reqOf cursor)).data, [reqOf cursor], true)
        | some c =>
          ((srv (reqOf cursor)).data ++ (getPatternsLoop srv fuel c).1,
           reqOf cursor :: (getPatternsLoop srv fuel c).2.1,
           (getPatternsLoop srv fuel c).2.2) := rfl

theorem pageServer_loop {α : Type} (ps : List (List α)) :
    ∀ (k i : Nat), i + (k + 1) = ps.length →
      getPatternsLoop (pageServer ps) (k + 1) (cursorFor i)
        = ((ps.drop i).flatten,
           (List.range (k + 1)).map (fun j => reqOf (cursorFor (i + j))),
           true) := by
  intro k
  induction k with
  | zero =>
    intro i hi
    have hdrop : (ps.drop i).length = 1 := by
      rw [List.length_drop]; omega
    obtain ⟨x, hx⟩ : ∃ x, ps.drop i = [x] := by
      match hd : ps.drop i with
      | [] => rw [hd] at hdrop; simp at hdrop
      | [x] => exact ⟨x, rfl⟩
      | x :: y :: t => rw [hd] at hdrop; simp at hdrop
    have hlast : ¬ (i + 1 < ps.length) := by omega
    have hresp : pageServer ps (reqOf (cursorFor i))
        = { data := (ps.drop i).headD [], pagCursor := none } := by
      rw [pageServer_at, if_neg hlast]
    rw [getPatternsLoop_succ, hresp]
    rw [hx]
    simp [List.range_succ]
  | succ k ih =>
    intro i hi
    have hnext : i + 1 < ps.length := by omega
    have hgetElem : i < ps.length := by omega
    have hrec := ih (i + 1) (by omega)
    have hresp : pageServer ps (reqOf (cursorFor i))
        = { data := (ps.drop i).headD [], pagCursor := some (cursorFor (i + 1)) } := by
      rw [pageServer_at, if_pos hnext]
    rw [getPatternsLoop_succ, hresp]
    dsimp only
    rw [hrec]
    dsimp only
    refine congrArg₂ _ ?_ (congrArg₂ _ ?_ rfl)
    · rw [List.drop_eq_getElem_cons hgetElem, List.flatten_cons]
      simp [List.getElem?_eq_getElem hgetElem]
    · conv_rhs => rw [List.range_succ_eq_map, List.map_cons, List.map_map]
      congr 1
      refine List.map_congr_left ?_
      intro j hj
      simp only [Function.comp]
      have harith : i + 1 + j = i + Nat.succ j := by omega
      rw [harith]

/-! ## Request primitive and endpoints (`codacy.py`, lines 13–69).

The constructor normalises the base URL (`rstrip("/")`), derives the
`authority` header by deleting the scheme, and builds the header
dictionary containing the `api-token`.  `_make_request` concatenates
the base URL and the endpoint (`lstrip("/")`), issues the request, and:
on a transport failure the underlying exception propagates with no
response; `raise_for_status` raises exactly for statuses 400–599,
propagating the status and the decoded error body; otherwise the
decoded JSON body is returned, `{}` when the body text is empty.

The transport is abstract: `Transport J` is either a transport-level
failure or a response with a status and an optional decoded body
(`none` = empty body text), for an arbitrary type `J` of decoded JSON
values. -/

/-- Embedding of Python `s.rstrip("/")` on the relevant alphabet. -/
def rstripSlash (s : String) : String :=
  ⟨((s.data.reverse.dropWhile (fun c => c = '/'))).reverse⟩

/-- Embedding of Python `s.lstrip("/")`. -/
def lstripSlash (s : String) : String :=
  ⟨s.data.dropWhile (fun c => c = '/')⟩

/-- Configuration visible to the API client (from `settings`). -/
structure ClientConfig where
  api_url : String
  api_token : String
  provider : String
  org_name : String
deriving DecidableEq, Repr

/-- Embedding of `self.base_url = settings.api_url.rstrip("/")`. -/
def baseUrl (c : ClientConfig) : String :=
  rstripSlash c.api_url

/-- Embedding of the `authority` computation: the base URL with the
`https://` and `http://` schemes deleted. -/
def authorityOf (c : ClientConfig) : String :=
  ((baseUrl c).replace "https://" "").replace "http://" ""

/-- Embedding of the header dictionary built in `CodacyAPI.__init__`. -/
def headers (c : ClientConfig) : List (String × String) :=
  [("authority", authorityOf c),
   ("Content-Type", "application/json"),
   ("Accept", "application/json"),
   ("api-token", c.api_token),
   ("x-requested-with", "XMLHttpRequest")]

/-- Embedding of the URL construction of `_make_request`:
`f"{self.base_url}/{endpoint.lstrip('/')}"`. -/
def requestUrl (c : ClientConfig) (endpoint : String) : String :=
  baseUrl c ++ "/" ++ lstripSlash endpoint

/-- Abstract outcome of the underlying `requests.request` call: either a
transport-level failure (no response at all) or a response carrying an
HTTP status and an optional decoded JSON body (`none` = empty text). -/
inductive Transport (J : Type) where
  | failure
  | response (status : Nat) (body : Option J)
deriving DecidableEq, Repr

/-- Typed error raised by the request primitive: the propagated
transport exception, or the HTTP error with its status and the decoded
error body when one is present. -/
inductive ReqError (J : Type) where
  | transport
  | httpStatus (status : Nat) (body : Option J)
deriving DecidableEq, Repr

/-- Embedding of `Response.raise_for_status` of the `requests` library:
it raises exactly for client errors (400–499) and server errors
(500–599). -/
def raiseForStatusFails (status : Nat) : Bool :=
  (400 ≤ status && status < 500) || (500 ≤ status && status < 600)

/-- Embedding of the result semantics of `_make_request` (lines 54–69 of
`codacy.py`): a transport failure propagates; an error status raises
with the status and error body; otherwise the decoded body is returned,
`emptyObj` (the `{}` dictionary) when the body text is empty. -/
def make_request {J : Type} (t : Transport J) (emptyObj : J) :
    Except (ReqError J) J :=
  match t with
  | Transport.failure => Except.error ReqError.transport
  | Transport.response s b =>
    if raiseForStatusFails s then Except.error (ReqError.httpStatus s b)
    else Except.ok (b.getD emptyObj)

/-- Endpoint of `create_coding_standard` (line 81 of `codacy.py`). -/
def createStandardEndpoint (c : ClientConfig) : String :=
  "api/v3/organizations/" ++ c.provider ++ "/" ++ c.org_name ++ "/coding-standards"

/-- Endpoint of `get_available_tools` (line 115 of `codacy.py`): the
global tool catalog, with no organization or provider segment. -/
def toolsEndpoint : String :=
  "api/v3/tools"

/-- Endpoint of `enable_tool` and `update_patterns` (lines 130 and 193
of `codacy.py`). -/
def toolConfigEndpoint (c : ClientConfig) (sid uuid : String) : String :=
  "api/v3/organizations/" ++ c.provider ++ "/" ++ c.org_name
    ++ "/coding-standards/" ++ sid ++ "/tools/" ++ uuid

/-- Endpoint of the per-tool patterns page request of `get_patterns`
(line 161 of `codacy.py`). -/
def patternsEndpoint (c : ClientConfig) (sid uuid : String) : String :=
  toolConfigEndpoint c sid uuid ++ "/patterns"

/-- Endpoint of `promote_draft` (line 212 of `codacy.py`). -/
def promoteEndpoint (c : ClientConfig) (sid : String) : String :=
  "api/v3/organizations/" ++ c.provider ++ "/" ++ c.org_name
    ++ "/coding-standards/" ++ sid ++ "/promote"

/-- Endpoint of `set_default` (line 225 of `codacy.py`). -/
def setDefaultEndpoint (c : ClientConfig) (sid : String) : String :=
  "api/v3/organizations/" ++ c.provider ++ "/" ++ c.org_name
    ++ "/coding-standards/" ++ sid ++ "/setDefault"

/-- Substring test used to state which URLs carry the organization and
provider segments. -/
def strContains (s sub : String) : Bool :=
  s.data.tails.any (fun t => sub.data.isPrefixOf t)

/-- C1: for every sequence of paginated responses, `get_patterns` issues
exactly one request per page, stops exactly when the pagination block
lacks a `cursor` key (the loop flag becomes `true` with exactly
`ps.length` requests), and returns the concatenation of the pages in
server-returned order, so the returned length is the sum of the page
lengths. -/
theorem C1_pagination {α : Type} (ps : List (List α)) (hne : ps ≠ []) :
    (get_patterns (pageServer ps) ps.length).1 = ps.flatten
    ∧ (get_patterns (pageServer ps) ps.length).2.1.length = ps.length
    ∧ (get_patterns (pageServer ps) ps.length).2.2 = true
    ∧ (get_patterns (pageServer ps) ps.length).1.length
        = (ps.map List.length).sum := by
  have hpos : 0 < ps.length := List.length_pos.mpr hne
  obtain ⟨k, hk⟩ : ∃ k, ps.length = k + 1 := ⟨ps.length - 1, by omega⟩
  have h := pageServer_loop ps k 0 (by omega)
  rw [cursorFor_zero] at h
  rw [get_patterns, hk, h]
  simp [List.length_flatten]

theorem C1_pagination_witness :
    ([[1, 2], [3], [4, 5, 6]] : List (List Nat)) ≠ []
    ∧ (get_patterns (pageServer [[1, 2], [3], [4, 5, 6]]) 3).1 = [1, 2, 3, 4, 5, 6]
    ∧ (get_patterns (pageServer [[1, 2], [3], [4, 5, 6]]) 3).2.1.length = 3
    ∧ (get_patterns (pageServer [[1, 2], [3], [4, 5, 6]]) 3).2.2 = true := by
  have h := C1_pagination [[1, 2], [3], [4, 5, 6]] (by decide)
  exact ⟨by decide, h.1.trans (by decide), h.2.1, h.2.2.1⟩

/-- Server that always answers with a pagination block whose `cursor`
key is present but maps to the empty string. -/
def emptyCursorServer : Option String → PageResponse Nat :=
  fun _ => { data := [], pagCursor := some "" }

/-- Server whose single response lacks the `cursor` key. -/
def lastPageServer : Option String → PageResponse Nat :=
  fun _ => { data := [7], pagCursor := none }

/-- C9: the loop of `get_patterns` terminates only when some response's
pagination block lacks the `cursor` key.  Against a server that always
maps `cursor` to `""` the loop never finishes (for every fuel the
completion flag stays `false`) while every request it issues omits the
`cursor` parameter entirely (the trace is all `none`, i.e. the first
page is re-requested); and whenever the loop does finish, one of the
issued requests received a response without a `cursor` key. -/
theorem C9_cursor_termination :
    (∀ fuel, getPatternsLoop emptyCursorServer fuel ""
        = ([], List.replicate fuel none, false))
    ∧ (∀ (srv : Option String → PageResponse Nat) (fuel : Nat) (c : String),
        (getPatternsLoop srv fuel c).2.2 = true →
        ∃ req ∈ (getPatternsLoop srv fuel c).2.1, (srv req).pagCursor = none)
    ∧ reqOf "" = none := by
  refine ⟨?_, ?_, rfl⟩
  · intro fuel
    induction fuel with
    | zero => rfl
    | succ n ih =>
      rw [getPatternsLoop_succ]
      dsimp [emptyCursorServer]
      rw [ih]
      simp [List.replicate_succ, reqOf]
  · intro srv fuel
    induction fuel with
    | zero =>
      intro c h
      simp [getPatternsLoop] at h
    | succ n ih =>
      intro c h
      rw [getPatternsLoop_succ] at h ⊢
      cases hc : (srv (reqOf c)).pagCursor with
      | none =>
        refine ⟨reqOf c, ?_, hc⟩
        simp
      | some c2 =>
        rw [hc] at h
        dsimp only at h ⊢
        obtain ⟨req, hreq, hnone⟩ := ih c2 h
        exact ⟨req, List.mem_cons_of_mem _ hreq, hnone⟩

theorem C9_cursor_termination_witness :
    getPatternsLoop emptyCursorServer 2 "" = ([], [none, none], false)
    ∧ ∃ req ∈ (getPatternsLoop lastPageServer 1 "").2.1,
        (lastPageServer req).pagCursor = none :=
  ⟨C9_cursor_termination.1 2,
   C9_cursor_termination.2.1 lastPageServer 1 "" (by decide)⟩

/-! ## Orchestration (`main.py`).

The workflow is embedded as a trace semantics.  A `Server` oracle fixes
the remote behaviour: the outcome of each request kind (a raised
`RequestException` is a `Bool` flag, responses are data fields).  Each
workflow function returns the list of `Event`s (API calls issued and
log lines emitted, in program order) together with its control flow.
Pagination inside `api.get_patterns` is abstracted at this level into a
single `getPatternsPaged` call event (its page-level behaviour is the
`get_patterns` model above). -/

/-- Embedding of Python truthiness of an optional string (`if not x:`
holds for a missing value and for the empty string). -/
def truthy : Option String → Bool
  | none => false
  | some s => !(s == "")

/-- Tool dictionary as read by `create_standard`: the `uuid` and `name`
keys, each possibly absent. -/
structure Tool where
  uuid : Option String
  name : Option String
deriving DecidableEq, Repr

/-- API calls issued by the workflow, with their arguments. -/
inductive ApiCall where
  | createStd
  | getTools
  | enableTool (sid uuid : String)
  | getPatternsPaged (sid uuid : String)
  | updatePatterns (sid uuid : String) (batch : List PatternUpdate)
  | promoteDraft (sid : String)
  | setDefaultCall (sid : String)
deriving DecidableEq, Repr

/-- Log lines emitted by the workflow, abstracted to their message kind
and interpolated data. -/
inductive LogLine where
  | creatingStd (name : String)
  | dryWouldCreate
  | createdStd (sid : String)
  | fetchingTools
  | noToolsWarn
  | skipToolWarn (t : Tool)
  | processingTool (name : String)
  | enabledTool (name : String)
  | dryWouldEnable (name : String)
  | dryWouldDisable (id : Option String) (severity : String)
  | disabledBatch (n : Nat)
  | promotingStd
  | settingDefault
  | successMsg
  | toolError (name : String)
  | fatalError
deriving DecidableEq, Repr

/-- One element of the workflow trace: an API call or a log line. -/
inductive Event where
  | call (c : ApiCall)
  | log (l : LogLine)
deriving DecidableEq, Repr

/-- Control flow of a workflow phase: completed normally, returned
early (the `return` on an empty tool catalog), or raised an exception
that reaches the top-level handler. -/
inductive Outcome where
  | completed
  | earlyReturn
  | raised
deriving DecidableEq, Repr

/-- Oracle fixing the remote service behaviour for one run: which
requests raise a `RequestException`, and the data fields of the
successful responses.  `createdId` is `response.get("data", {}).get("id")`;
per-tool behaviour is keyed by the tool uuid. -/
structure Server where
  createFails : Bool
  createdId : Option String
  getToolsFails : Bool
  tools : List Tool
  getPatternsFails : String → Bool
  patterns : String → List Pattern
  enableFails : String → Bool
  updateFails : String → Bool
  promoteFails : Bool
  setDefaultFails : Bool

/-- Embedding of the batch loop of `process_patterns` (lines 46–49 of
`main.py`) over an explicit batch list: each iteration issues one
`update_patterns` call and logs the batch size; a raised call aborts
the loop and propagates (flag `true`). -/
def updateBatchLoop (srv : Server) (sid uuid : String) :
    List (List PatternUpdate) → List Event × Bool
  | [] => ([], false)
  | b :: bs =>
    if srv.updateFails uuid then
      ([Event.call (ApiCall.updatePatterns sid uuid b)], true)
    else
      let rest := updateBatchLoop srv sid uuid bs
      (Event.call (ApiCall.updatePatterns sid uuid b)
         :: Event.log (LogLine.disabledBatch b.length) :: rest.1,
       rest.2)

/-- Embedding of `process_patterns` (lines 8–49 of `main.py`): fetch the
patterns, select the `info`/`minor` ones in order (logging each one in
dry-run mode), and, when the selection is non-empty and the run is not
dry, apply the batches of at most 500.  The flag is `true` when an
exception propagates to the caller. -/
def processPatterns (srv : Server) (sid uuid : String) (dry : Bool) :
    List Event × Bool :=
  if srv.getPatternsFails uuid then
    ([Event.call (ApiCall.getPatternsPaged sid uuid)], true)
  else
    let sel := (srv.patterns uuid).filter selectPattern
    let dryLogs := if dry then
        sel.map (fun p =>
          Event.log (LogLine.dryWouldDisable (updateEntry p).id (severityOf p)))
      else []
    let toUpdate := sel.map updateEntry
    let head := Event.call (ApiCall.getPatternsPaged sid uuid) :: dryLogs
    if !toUpdate.isEmpty && !dry then
      let rest := updateBatchLoop srv sid uuid (pyBatches toUpdate)
      (head ++ rest.1, rest.2)
    else
      (head, false)

/-- Embedding of one iteration of the tool loop of `create_standard`
(lines 91–115 of `main.py`).  The `try`/`except` catches every failure
inside the iteration, so the iteration always completes, emitting one
`toolError` log when its body raised. -/
def processTool (srv : Server) (sid : String) (dry : Bool) (t : Tool) :
    List Event :=
  if !(truthy t.uuid) || !(truthy t.name) then
    [Event.log (LogLine.skipToolWarn t)]
  else
    let u := t.uuid.getD ""
    let n := t.name.getD ""
    Event.log (LogLine.processingTool n) ::
      (if !dry then
        if srv.enableFails u then
          [Event.call (ApiCall.enableTool sid u), Event.log (LogLine.toolError n)]
        else
          let rest := processPatterns srv sid u dry
          Event.call (ApiCall.enableTool sid u)
            :: Event.log (LogLine.enabledTool n)
            :: (rest.1 ++ (if rest.2 then [Event.log (LogLine.toolError n)] else []))
      else
        let rest := processPatterns srv sid u dry
        Event.log (LogLine.dryWouldEnable n)
          :: (rest.1 ++ (if rest.2 then [Event.log (LogLine.toolError n)] else [])))

/-- Embedding of the finishing phase of `create_standard` (lines
117–126 of `main.py`): promote and set-default, both skipped when dry,
then the success log. -/
def afterTools (srv : Server) (sid : String) (dry : Bool) :
    List Event × Outcome :=
  if dry then
    ([Event.log LogLine.successMsg], Outcome.completed)
  else if srv.promoteFails then
    ([Event.log LogLine.promotingStd, Event.call (ApiCall.promoteDraft sid)],
     Outcome.raised)
  else if srv.setDefaultFails then
    ([Event.log LogLine.promotingStd, Event.call (ApiCall.promoteDraft sid),
      Event.log LogLine.settingDefault, Event.call (ApiCall.setDefaultCall sid)],
     Outcome.raised)
  else
    ([Event.log LogLine.promotingStd, Event.call (ApiCall.promoteDraft sid),
      Event.log LogLine.settingDefault, Event.call (ApiCall.setDefaultCall sid),
      Event.log LogLine.successMsg],
     Outcome.completed)

/-- Embedding of lines 84–126 of `main.py`: fetch the tool catalog,
return early with a warning when it is empty, otherwise run the tool
loop and the finishing phase. -/
def toolsAndRest (srv : Server) (sid : String) (dry : Bool) :
    List Event × Outcome :=
  if srv.getToolsFails then
    ([Event.log LogLine.fetchingTools, Event.call ApiCall.getTools],
     Outcome.raised)
  else if srv.tools.isEmpty then
    ([Event.log LogLine.fetchingTools, Event.call ApiCall.getTools,
      Event.log LogLine.noToolsWarn],
     Outcome.earlyReturn)
  else
    let loopEvs := (srv.tools.map (processTool srv sid dry)).flatten
    let rest := afterTools srv sid dry
    ([Event.log LogLine.fetchingTools, Event.call ApiCall.getTools]
       ++ loopEvs ++ rest.1,
     rest.2)

/-- Embedding of `create_standard` (lines 51–130 of `main.py`) wrapped
by `main`: the full trace and the process exit status (the top-level
handler logs the failure and calls `sys.exit(1)`; otherwise the process
finishes with status 0). -/
def create_standard (srv : Server) (name : String) (dry : Bool) :
    List Event × Nat :=
  let run : List Event × Outcome :=
    if dry then
      let rest := toolsAndRest srv "dry-run-id" true
      (Event.log (LogLine.creatingStd name) :: Event.log LogLine.dryWouldCreate
         :: rest.1,
       rest.2)
    else if srv.createFails then
      ([Event.log (LogLine.creatingStd name), Event.call ApiCall.createStd],
       Outcome.raised)
    else if !(truthy srv.createdId) then
      ([Event.log (LogLine.creatingStd name), Event.call ApiCall.createStd],
       Outcome.raised)
    else
      let sid := srv.createdId.getD ""
      let rest := toolsAndRest srv sid false
      (Event.log (LogLine.creatingStd name) :: Event.call ApiCall.createStd
         :: Event.log (LogLine.createdStd sid) :: rest.1,
       rest.2)
  match run.2 with
  | Outcome.raised => (run.1 ++ [Event.log LogLine.fatalError], 1)
  | _ => (run.1, 0)

/-- Calls that mutate remote state: everything except the two reads
(`get_available_tools` and the pattern fetch). -/
def isMutCall : Event → Bool
  | Event.call ApiCall.createStd => true
  | Event.call (ApiCall.enableTool _ _) => true
  | Event.call (ApiCall.updatePatterns _ _ _) => true
  | Event.call (ApiCall.promoteDraft _) => true
  | Event.call (ApiCall.setDefaultCall _) => true
  | _ => false

/-- Log lines flagged `[DRY RUN]` announcing an intended mutation. -/
def isDryMutationLog : Event → Bool
  | Event.log LogLine.dryWouldCreate => true
  | Event.log (LogLine.dryWouldEnable _) => true
  | Event.log (LogLine.dryWouldDisable _ _) => true
  | _ => false

/-- Calls made after the tool catalog fetch: the per-tool calls and the
finishing mutations (used to state the empty-catalog claim). -/
def isPostCatalogCall : Event → Bool
  | Event.call (ApiCall.enableTool _ _) => true
  | Event.call (ApiCall.getPatternsPaged _ _) => true
  | Event.call (ApiCall.updatePatterns _ _ _) => true
  | Event.call (ApiCall.promoteDraft _) => true
  | Event.call (ApiCall.setDefaultCall _) => true
  | _ => false

/-- Per-tool error log recogniser. -/
def isToolErrorLog : Event → Bool
  | Event.log (LogLine.toolError _) => true
  | _ => false

/-- Batches carried by the `update_patterns` calls of a trace, in
order. -/
def extractUpdates : List Event → List (List PatternUpdate)
  | [] => []
  | Event.call (ApiCall.updatePatterns _ _ b) :: es => b :: extractUpdates es
  | _ :: es => extractUpdates es

/-- The failure conditions of the non-dry workflow that reach the
top-level handler (per-tool failures are excluded: they are caught in
the loop). -/
def topLevelFails (srv : Server) : Bool :=
  srv.createFails || !(truthy srv.createdId) || srv.getToolsFails
    || (!srv.tools.isEmpty && (srv.promoteFails || srv.setDefaultFails))

theorem selectPattern_const (i : Option String) (s : String) :
    selectPattern { patternDefinition := some { id := i, severityLevel := some s } }
      = (["info", "minor"] : List String).contains (pyLower s) := rfl

/-- C3: the severity filter of `process_patterns` is case-insensitive —
a pattern carrying a `severityLevel` is selected exactly when its
lower-cased value is `"info"` or `"minor"` (so `"Minor"`, `"minor"`,
`"MINOR"` are always selected and `"major"`/`"critical"` never are) —
and the filter is idempotent on lists. -/
theorem C3_severity_filter :
    (∀ (p : Pattern) (pd : PatternDefinition) (s : String),
        p.patternDefinition = some pd → pd.severityLevel = some s →
        (selectPattern p = true ↔ (pyLower s = "info" ∨ pyLower s = "minor")))
    ∧ (∀ i, selectPattern
        { patternDefinition := some { id := i, severityLevel := some "Minor" } } = true)
    ∧ (∀ i, selectPattern
        { patternDefinition := some { id := i, severityLevel := some "minor" } } = true)
    ∧ (∀ i, selectPattern
        { patternDefinition := some { id := i, severityLevel := some "MINOR" } } = true)
    ∧ (∀ i, selectPattern
        { patternDefinition := some { id := i, severityLevel := some "major" } } = false)
    ∧ (∀ i, selectPattern
        { patternDefinition := some { id := i, severityLevel := some "critical" } } = false)
    ∧ (∀ l : List Pattern,
        (l.filter selectPattern).filter selectPattern = l.filter selectPattern) := by
  refine ⟨?_,
    fun i => (selectPattern_const i "Minor").trans (by decide),
    fun i => (selectPattern_const i "minor").trans (by decide),
    fun i => (selectPattern_const i "MINOR").trans (by decide),
    fun i => (selectPattern_const i "major").trans (by decide),
    fun i => (selectPattern_const i "critical").trans (by decide), ?_⟩
  · intro p pd s h1 h2
    simp only [selectPattern, severityOf, h1, Option.getD_some, h2]
    simp
  · intro l
    simp [List.filter_filter, Bool.and_self]

theorem C3_severity_filter_witness :
    (selectPattern
        { patternDefinition := some { id := some "p", severityLevel := some "Minor" } } = true
      ↔ (pyLower "Minor" = "info" ∨ pyLower "Minor" = "minor"))
    ∧ selectPattern
        { patternDefinition := some { id := some "p", severityLevel := some "MINOR" } } = true :=
  ⟨C3_severity_filter.1 _ _ "Minor" rfl rfl, C3_severity_filter.2.2.2.1 (some "p")⟩

/-- C10: a pattern missing `patternDefinition` or `severityLevel` is
treated as severity `""` and is never selected (no error is raised: the
selection is total), and a selected pattern whose definition lacks an
`id` still contributes the entry `{id: None, enabled: False}` to the
update list. -/
theorem C10_missing_fields :
    (∀ p : Pattern, p.patternDefinition = none →
        severityOf p = "" ∧ selectPattern p = false)
    ∧ (∀ (p : Pattern) (pd : PatternDefinition),
        p.patternDefinition = some pd → pd.severityLevel = none →
        severityOf p = "" ∧ selectPattern p = false)
    ∧ (∀ (p : Pattern) (pd : PatternDefinition),
        p.patternDefinition = some pd → pd.id = none →
        selectPattern p = true →
        updateEntry p = { id := none, enabled := false }
          ∧ patternsToUpdate [p] = [{ id := none, enabled := false }]) := by
  refine ⟨?_, ?_, ?_⟩
  · intro p h
    constructor
    · simp [severityOf, h, pyLower]
    · simp [selectPattern, severityOf, h, pyLower]
  · intro p pd h1 h2
    constructor
    · simp [severityOf, h1, h2, pyLower]
    · simp [selectPattern, severityOf, h1, h2, pyLower]
  · intro p pd h1 h2 hsel
    constructor
    · simp [updateEntry, h1, h2]
    · simp [patternsToUpdate, hsel, updateEntry, h1, h2]

theorem C10_missing_fields_witness :
    (severityOf { patternDefinition := none } = ""
       ∧ selectPattern { patternDefinition := none } = false)
    ∧ patternsToUpdate
        [{ patternDefinition := some { id := none, severityLevel := some "info" } }]
        = [{ id := none, enabled := false }] :=
  ⟨C10_missing_fields.1 _ rfl,
   (C10_missing_fields.2.2 _ _ rfl rfl (by decide)).2⟩

theorem extractUpdates_batchLoop (srv : Server) (sid uuid : String)
    (h : srv.updateFails uuid = false) :
    ∀ bs, extractUpdates (updateBatchLoop srv sid uuid bs).1 = bs
      ∧ (updateBatchLoop srv sid uuid bs).2 = false := by
  intro bs
  induction bs with
  | nil => exact ⟨rfl, rfl⟩
  | cons b bs ih =>
    simp [updateBatchLoop, h, extractUpdates, ih.1, ih.2]

/-- C2: when the selected list is non-empty (non-dry run and no request
failure), the `update_patterns` calls issued by `process_patterns`
carry exactly the `range(0, N, 500)` slices of the selected list: there
are `⌈N/500⌉` of them, none exceeds 500 entries, the sizes sum to `N`,
and their concatenation is the selected list in order; in particular
1200 selected patterns give exactly the sizes `[500, 500, 200]`. -/
theorem C2_batching (srv : Server) (sid uuid : String)
    (hgp : srv.getPatternsFails uuid = false)
    (hup : srv.updateFails uuid = false)
    (hne : patternsToUpdate (srv.patterns uuid) ≠ []) :
    extractUpdates (processPatterns srv sid uuid false).1
        = pyBatches (patternsToUpdate (srv.patterns uuid))
    ∧ (extractUpdates (processPatterns srv sid uuid false).1).length
        = ((patternsToUpdate (srv.patterns uuid)).length + 499) / 500
    ∧ (∀ b ∈ extractUpdates (processPatterns srv sid uuid false).1, b.length ≤ 500)
    ∧ ((extractUpdates (processPatterns srv sid uuid false).1).map List.length).sum
        = (patternsToUpdate (srv.patterns uuid)).length
    ∧ (extractUpdates (processPatterns srv sid uuid false).1).flatten
        = patternsToUpdate (srv.patterns uuid)
    ∧ (pyBatches (List.replicate 1200
          ({ id := none, enabled := false } : PatternUpdate))).map List.length
        = [500, 500, 200] := by
  have hiE : (patternsToUpdate (srv.patterns uuid)).isEmpty = false := by
    cases h : patternsToUpdate (srv.patterns uuid) with
    | nil => exact absurd h hne
    | cons a l => rfl
  have hbatch := extractUpdates_batchLoop srv sid uuid hup
    (pyBatches (patternsToUpdate (srv.patterns uuid)))
  have hmain : extractUpdates (processPatterns srv sid uuid false).1
      = pyBatches (patternsToUpdate (srv.patterns uuid)) := by
    rw [patternsToUpdate] at hiE hbatch ⊢
    simp [processPatterns, hgp, hiE, extractUpdates, hbatch.1]
  refine ⟨hmain, ?_, ?_, ?_, ?_, by decide⟩
  · rw [hmain, pyBatches_length]
  · rw [hmain]; exact pyBatches_size_le _
  · rw [hmain, pyBatches_sum_sizes]
  · rw [hmain, pyBatches_flatten]

theorem C2_batching_witness :
    extractUpdates (processPatterns
        { createFails := false, createdId := some "std", getToolsFails := false,
          tools := [],
          getPatternsFails := fun _ => false,
          patterns := fun _ =>
            [{ patternDefinition := some { id := some "a", severityLevel := some "info" } },
             { patternDefinition := some { id := some "b", severityLevel := some "Minor" } },
             { patternDefinition := some { id := some "c", severityLevel := some "critical" } }],
          enableFails := fun _ => false, updateFails := fun _ => false,
          promoteFails := false, setDefaultFails := false }
        "std" "u" false).1
      = [[{ id := some "a", enabled := false }, { id := some "b", enabled := false }]] := by
  have h := C2_batching
    { createFails := false, createdId := some "std", getToolsFails := false,
      tools := [],
      getPatternsFails := fun _ => false,
      patterns := fun _ =>
        [{ patternDefinition := some { id := some "a", severityLevel := some "info" } },
         { patternDefinition := some { id := some "b", severityLevel := some "Minor" } },
         { patternDefinition := some { id := some "c", severityLevel := some "critical" } }],
      enableFails := fun _ => false, updateFails := fun _ => false,
      promoteFails := false, setDefaultFails := false }
    "std" "u" rfl rfl (by decide)
  exact h.1.trans (by decide)

/-- C6: on an empty tool catalog the workflow logs the warning and
returns without error — the trace is exactly the creation phase, the
catalog fetch and the warning, with no per-tool call and no promote or
set-default call, and the process exits with status 0. -/
theorem C6_empty_catalog (srv : Server) (name sid : String)
    (h1 : srv.createFails = false) (h2 : srv.createdId = some sid)
    (hid : sid ≠ "") (h3 : srv.getToolsFails = false) (h4 : srv.tools = []) :
    create_standard srv name false
      = ([Event.log (LogLine.creatingStd name), Event.call ApiCall.createStd,
          Event.log (LogLine.createdStd sid), Event.log LogLine.fetchingTools,
          Event.call ApiCall.getTools, Event.log LogLine.noToolsWarn], 0)
    ∧ Event.log LogLine.noToolsWarn ∈ (create_standard srv name false).1
    ∧ (create_standard srv name false).1.countP isPostCatalogCall = 0
    ∧ (create_standard srv name false).2 = 0 := by
  have htruthy : truthy (some sid) = true := by
    simp [truthy, hid]
  have hmain : create_standard srv name false
      = ([Event.log (LogLine.creatingStd name), Event.call ApiCall.createStd,
          Event.log (LogLine.createdStd sid), Event.log LogLine.fetchingTools,
          Event.call ApiCall.getTools, Event.log LogLine.noToolsWarn], 0) := by
    simp [create_standard, toolsAndRest, h1, h2, h3, h4, htruthy]
  refine ⟨hmain, ?_, ?_, ?_⟩
  · rw [hmain]; simp
  · rw [hmain]; simp [isPostCatalogCall]
  · rw [hmain]

/-- Server with an empty tool catalog and no failing request. -/
def emptyCatalogServer : Server :=
  { createFails := false, createdId := some "std-1", getToolsFails := false,
    tools := [],
    getPatternsFails := fun _ => false, patterns := fun _ => [],
    enableFails := fun _ => false, updateFails := fun _ => false,
    promoteFails := false, setDefaultFails := false }

theorem C6_empty_catalog_witness :
    create_standard emptyCatalogServer "std" false
      = ([Event.log (LogLine.creatingStd "std"), Event.call ApiCall.createStd,
          Event.log (LogLine.createdStd "std-1"), Event.log LogLine.fetchingTools,
          Event.call ApiCall.getTools, Event.log LogLine.noToolsWarn], 0)
    ∧ (create_standard emptyCatalogServer "std" false).1.countP isPostCatalogCall = 0 := by
  have h := C6_empty_catalog emptyCatalogServer "std" "std-1" rfl rfl (by decide) rfl rfl
  exact ⟨h.1, h.2.2.1⟩

/-- C8: the exit status of the non-dry workflow is 1 exactly when a
top-level failure occurs (request failure during creation, a created
response whose id is missing or empty, tool-catalog failure, promote or
set-default failure — per-tool failures are excluded), the failure is
logged before exiting, and a run with no such failure exits 0; a dry
run fails only on the tool-catalog read. -/
theorem C8_exit_codes (srv : Server) (name : String) :
    ((create_standard srv name false).2 = if topLevelFails srv then 1 else 0)
    ∧ (topLevelFails srv = true →
        Event.log LogLine.fatalError ∈ (create_standard srv name false).1)
    ∧ ((create_standard srv name true).2 = if srv.getToolsFails then 1 else 0) := by
  obtain ⟨cf, cid, gtf, tools, gpf, pats, ef, uf, pf, sdf⟩ := srv
  refine ⟨?_, ?_, ?_⟩
  · cases cf <;> cases htruthy : truthy cid <;> cases gtf <;> cases pf <;>
      cases sdf <;> cases tools <;>
      simp [create_standard, toolsAndRest, afterTools, topLevelFails, htruthy]
  · intro hfail
    cases cf <;> cases htruthy : truthy cid <;> cases gtf <;> cases pf <;>
      cases sdf <;> cases tools <;>
      simp [topLevelFails, htruthy] at hfail <;>
      simp [create_standard, toolsAndRest, afterTools, htruthy]
  · cases gtf <;> cases tools <;>
      simp [create_standard, toolsAndRest, afterTools]

/-- Server whose promote request fails. -/
def promoteFailServer : Server :=
  { createFails := false, createdId := some "std-1", getToolsFails := false,
    tools := [{ uuid := some "u1", name := some "t1" }],
    getPatternsFails := fun _ => false, patterns := fun _ => [],
    enableFails := fun _ => false, updateFails := fun _ => false,
    promoteFails := true, setDefaultFails := false }

theorem C8_exit_codes_witness :
    (create_standard promoteFailServer "std" false).2 = 1
    ∧ Event.log LogLine.fatalError ∈ (create_standard promoteFailServer "std" false).1
    ∧ (create_standard emptyCatalogServer "std" false).2 = 0 := by
  refine ⟨?_, (C8_exit_codes promoteFailServer "std").2.1 (by decide), ?_⟩
  · have h := (C8_exit_codes promoteFailServer "std").1
    rw [h]; decide
  · have h := (C8_exit_codes emptyCatalogServer "std").1
    rw [h]; decide

theorem countP_map_const_true {α β : Type} (p : β → Bool) (f : α → β)
    (l : List α) (h : ∀ a, p (f a) = true) : (l.map f).countP p = l.length := by
  induction l with
  | nil => rfl
  | cons a l ih => simp [List.countP_cons, h, ih]

theorem countP_map_const_false {α β : Type} (p : β → Bool) (f : α → β)
    (l : List α) (h : ∀ a, p (f a) = false) : (l.map f).countP p = 0 := by
  induction l with
  | nil => rfl
  | cons a l ih => simp [List.countP_cons, h, ih]

theorem batchLoop_no_toolError (srv : Server) (sid u : String)
    (h : srv.updateFails u = false) :
    ∀ bs, (updateBatchLoop srv sid u bs).1.countP isToolErrorLog = 0 := by
  intro bs
  induction bs with
  | nil => rfl
  | cons b bs ih =>
    simp [updateBatchLoop, h, List.countP_cons, isToolErrorLog, ih]

theorem processPatterns_dry (srv : Server) (sid u : String)
    (h : srv.getPatternsFails u = false) :
    processPatterns srv sid u true
      = (Event.call (ApiCall.getPatternsPaged sid u)
          :: ((srv.patterns u).filter selectPattern).map (fun p =>
               Event.log (LogLine.dryWouldDisable (updateEntry p).id (severityOf p))),
         false) := by
  simp [processPatterns, h]

theorem processPatterns_nodry (srv : Server) (sid u : String)
    (hgp : srv.getPatternsFails u = false) (huf : srv.updateFails u = false) :
    (processPatterns srv sid u false).2 = false
    ∧ (processPatterns srv sid u false).1.countP isToolErrorLog = 0 := by
  cases hE : (((srv.patterns u).filter selectPattern).map updateEntry).isEmpty with
  | true =>
    simp [processPatterns, hgp, hE, List.countP_cons, isToolErrorLog]
  | false =>
    have hflag := (extractUpdates_batchLoop srv sid u huf
      (pyBatches (((srv.patterns u).filter selectPattern).map updateEntry))).2
    have hcnt := batchLoop_no_toolError srv sid u huf
      (pyBatches (((srv.patterns u).filter selectPattern).map updateEntry))
    simp [processPatterns, hgp, hE, List.countP_cons, List.countP_append,
      isToolErrorLog, hflag, hcnt]

theorem processTool_dry (srv : Server) (sid : String) (t : Tool) (u n : String)
    (hu : t.uuid = some u) (hn : t.name = some n) (hu0 : u ≠ "") (hn0 : n ≠ "")
    (h : srv.getPatternsFails u = false) :
    processTool srv sid true t
      = Event.log (LogLine.processingTool n)
        :: Event.log (LogLine.dryWouldEnable n)
        :: Event.call (ApiCall.getPatternsPaged sid u)
        :: ((srv.patterns u).filter selectPattern).map (fun p =>
             Event.log (LogLine.dryWouldDisable (updateEntry p).id (severityOf p))) := by
  simp [processTool, hu, hn, truthy, hu0, hn0, processPatterns_dry srv sid u h]

theorem processTool_enableFail (srv : Server) (sid : String) (t : Tool) (u n : String)
    (hu : t.uuid = some u) (hn : t.name = some n) (hu0 : u ≠ "") (hn0 : n ≠ "")
    (hef : srv.enableFails u = true) :
    processTool srv sid false t
      = [Event.log (LogLine.processingTool n),
         Event.call (ApiCall.enableTool sid u),
         Event.log (LogLine.toolError n)] := by
  simp [processTool, hu, hn, truthy, hu0, hn0, hef]

theorem processTool_ok_noError (srv : Server) (sid : String) (t : Tool) (u n : String)
    (hu : t.uuid = some u) (hn : t.name = some n) (hu0 : u ≠ "") (hn0 : n ≠ "")
    (hef : srv.enableFails u = false) (hgp : srv.getPatternsFails u = false)
    (huf : srv.updateFails u = false) :
    (processTool srv sid false t).countP isToolErrorLog = 0 := by
  have hpp := processPatterns_nodry srv sid u hgp huf
  simp [processTool, hu, hn, truthy, hu0, hn0, hef, hpp.1, hpp.2,
    List.countP_cons, List.countP_append, isToolErrorLog]

/-- C5: per-tool failure isolation.  The non-dry trace is the fixed
creation and finishing phases around the concatenation of one complete
segment per tool — so every tool is processed whatever happens to the
others; a tool whose enable call raises contributes exactly its
processing log, the raising call, and one error log (the exception is
caught there); a tool whose calls all succeed contributes no error
log. -/
theorem C5_tool_isolation (srv : Server) (name : String)
    (h1 : srv.createFails = false) (htr : truthy srv.createdId = true)
    (h3 : srv.getToolsFails = false) (hne : srv.tools ≠ [])
    (hpf : srv.promoteFails = false) (hsf : srv.setDefaultFails = false) :
    ((create_standard srv name false).1
      = [Event.log (LogLine.creatingStd name), Event.call ApiCall.createStd,
         Event.log (LogLine.createdStd (srv.createdId.getD "")),
         Event.log LogLine.fetchingTools, Event.call ApiCall.getTools]
        ++ (srv.tools.map (processTool srv (srv.createdId.getD "") false)).flatten
        ++ [Event.log LogLine.promotingStd,
            Event.call (ApiCall.promoteDraft (srv.createdId.getD "")),
            Event.log LogLine.settingDefault,
            Event.call (ApiCall.setDefaultCall (srv.createdId.getD "")),
            Event.log LogLine.successMsg])
    ∧ (∀ t u n, t ∈ srv.tools → t.uuid = some u → t.name = some n →
        u ≠ "" → n ≠ "" → srv.enableFails u = true →
        processTool srv (srv.createdId.getD "") false t
          = [Event.log (LogLine.processingTool n),
             Event.call (ApiCall.enableTool (srv.createdId.getD "") u),
             Event.log (LogLine.toolError n)])
    ∧ (∀ t u n, t ∈ srv.tools → t.uuid = some u → t.name = some n →
        u ≠ "" → n ≠ "" → srv.enableFails u = false →
        srv.getPatternsFails u = false → srv.updateFails u = false →
        (processTool srv (srv.createdId.getD "") false t).countP isToolErrorLog = 0) := by
  have hE : srv.tools.isEmpty = false := by
    cases h : srv.tools with
    | nil => exact absurd h hne
    | cons a l => rfl
  refine ⟨?_, ?_, ?_⟩
  · simp [create_standard, toolsAndRest, afterTools, h1, htr, h3, hE, hpf, hsf]
  · intro t u n _ hu hn hu0 hn0 hef
    exact processTool_enableFail srv _ t u n hu hn hu0 hn0 hef
  · intro t u n _ hu hn hu0 hn0 hef hgp huf
    exact processTool_ok_noError srv _ t u n hu hn hu0 hn0 hef hgp huf

/-- Server with three valid tools whose second tool's enable call
raises. -/
def threeToolServer : Server :=
  { createFails := false, createdId := some "std-1", getToolsFails := false,
    tools := [{ uuid := some "u1", name := some "t1" },
              { uuid := some "u2", name := some "t2" },
              { uuid := some "u3", name := some "t3" }],
    getPatternsFails := fun _ => false,
    patterns := fun _ =>
      [{ patternDefinition := some { id := some "p1", severityLevel := some "Info" } }],
    enableFails := fun u => u == "u2",
    updateFails := fun _ => false,
    promoteFails := false, setDefaultFails := false }

theorem C5_tool_isolation_witness :
    processTool threeToolServer "std-1" false { uuid := some "u2", name := some "t2" }
      = [Event.log (LogLine.processingTool "t2"),
         Event.call (ApiCall.enableTool "std-1" "u2"),
         Event.log (LogLine.toolError "t2")]
    ∧ (processTool threeToolServer "std-1" false
        { uuid := some "u1", name := some "t1" }).countP isToolErrorLog = 0
    ∧ (create_standard threeToolServer "std" false).1.countP isToolErrorLog = 1
    ∧ Event.log (LogLine.enabledTool "t1") ∈ (create_standard threeToolServer "std" false).1
    ∧ Event.log (LogLine.enabledTool "t3") ∈ (create_standard threeToolServer "std" false).1 := by
  have h := C5_tool_isolation threeToolServer "std" rfl (by decide) rfl (by decide) rfl rfl
  refine ⟨?_, ?_, ?_, ?_, ?_⟩
  · exact h.2.1 _ "u2" "t2" (by decide) rfl rfl (by decide) (by decide) (by decide)
  · exact h.2.2 _ "u1" "t1" (by decide) rfl rfl (by decide) (by decide) (by decide)
      (by decide) (by decide)
  · rw [h.1]; decide
  · rw [h.1]; decide
  · rw [h.1]; decide

theorem processTool_dry_counts (srv : Server) (sid : String) (t : Tool) (u n : String)
    (hu : t.uuid = some u) (hn : t.name = some n) (hu0 : u ≠ "") (hn0 : n ≠ "")
    (h : srv.getPatternsFails u = false) :
    ((processTool srv sid true t).countP isMutCall = 0)
    ∧ ((processTool srv sid true t).countP isDryMutationLog
        = 1 + ((srv.patterns u).filter selectPattern).length)
    ∧ Event.call (ApiCall.getPatternsPaged sid u) ∈ processTool srv sid true t := by
  rw [processTool_dry srv sid t u n hu hn hu0 hn0 h]
  refine ⟨?_, ?_, by simp⟩
  · simp [List.countP_cons, isMutCall]
  · simp [List.countP_cons, isDryMutationLog]
    have hc : List.countP
        (isDryMutationLog ∘ fun p =>
          Event.log (LogLine.dryWouldDisable (updateEntry p).id (severityOf p)))
        (List.filter selectPattern (srv.patterns u))
        = (List.filter selectPattern (srv.patterns u)).length :=
      List.countP_eq_length.mpr (fun a _ => rfl)
    rw [hc]
    omega

theorem toolLoop_dry_counts (srv : Server) (sid : String)
    (hp : ∀ u, srv.getPatternsFails u = false) :
    ∀ ts : List Tool,
      (∀ t ∈ ts, ∃ u n, t.uuid = some u ∧ t.name = some n ∧ u ≠ "" ∧ n ≠ "") →
      ((ts.map (processTool srv sid true)).flatten.countP isMutCall = 0)
      ∧ ((ts.map (processTool srv sid true)).flatten.countP isDryMutationLog
          = ts.length + (ts.map (fun t =>
              ((srv.patterns (t.uuid.getD "")).filter selectPattern).length)).sum)
      ∧ (∀ t ∈ ts, ∀ u, t.uuid = some u →
          Event.call (ApiCall.getPatternsPaged sid u)
            ∈ (ts.map (processTool srv sid true)).flatten) := by
  intro ts
  induction ts with
  | nil =>
    intro hv
    exact ⟨rfl, rfl, by simp⟩
  | cons t ts ih =>
    intro hv
    obtain ⟨u, n, hu, hn, hu0, hn0⟩ := hv t (List.mem_cons_self t ts)
    have hcounts := processTool_dry_counts srv sid t u n hu hn hu0 hn0 (hp u)
    have hih := ih (fun t' ht' => hv t' (List.mem_cons_of_mem t ht'))
    refine ⟨?_, ?_, ?_⟩
    · simp [List.countP_append, hcounts.1, hih.1]
    · simp [List.countP_append, hcounts.2.1, hih.2.1, hu]
      omega
    · intro t' ht' u' hu'
      rcases List.mem_cons.mp ht' with h | h
      · subst h
        have huu : u' = u := by
          rw [hu] at hu'
          exact (Option.some.inj hu').symm
        subst huu
        simp only [List.map_cons, List.flatten_cons]
        exact List.mem_append_left _ hcounts.2.2
      · simp only [List.map_cons, List.flatten_cons]
        exact List.mem_append_right _ (hih.2.2 t' h u' hu')

/-- C4 (amended): a dry run invokes zero mutating operations, still
performs the reads (the tool catalog and the per-tool pattern fetch),
and emits exactly one `[DRY RUN]` log line for the would-be standard
creation, one per would-be tool enable, and one per pattern that would
be disabled; the skipped promote and set-default steps produce no log
line, and the run exits 0. -/
theorem C4_dry_run (srv : Server) (name : String)
    (hg : srv.getToolsFails = false)
    (hp : ∀ u, srv.getPatternsFails u = false)
    (hv : ∀ t ∈ srv.tools, ∃ u n, t.uuid = some u ∧ t.name = some n ∧ u ≠ "" ∧ n ≠ "") :
    ((create_standard srv name true).1.countP isMutCall = 0)
    ∧ Event.call ApiCall.getTools ∈ (create_standard srv name true).1
    ∧ (∀ t ∈ srv.tools, ∀ u, t.uuid = some u →
        Event.call (ApiCall.getPatternsPaged "dry-run-id" u)
          ∈ (create_standard srv name true).1)
    ∧ ((create_standard srv name true).1.countP isDryMutationLog
        = 1 + srv.tools.length
            + (srv.tools.map (fun t =>
                ((srv.patterns (t.uuid.getD "")).filter selectPattern).length)).sum)
    ∧ (create_standard srv name true).2 = 0 := by
  cases htool : srv.tools with
  | nil =>
    rw [htool] at hv
    refine ⟨?_, ?_, ?_, ?_, ?_⟩
    · simp [create_standard, toolsAndRest, hg, htool, List.countP_cons, isMutCall]
    · simp [create_standard, toolsAndRest, hg, htool]
    · simp
    · simp [create_standard, toolsAndRest, hg, htool, List.countP_cons, isDryMutationLog]
    · simp [create_standard, toolsAndRest, hg, htool]
  | cons t0 ts0 =>
    have hloop := toolLoop_dry_counts srv "dry-run-id" hp (t0 :: ts0) (htool ▸ hv)
    have hE : srv.tools.isEmpty = false := by rw [htool]; rfl
    have htrace : (create_standard srv name true).1
        = Event.log (LogLine.creatingStd name) :: Event.log LogLine.dryWouldCreate
          :: Event.log LogLine.fetchingTools :: Event.call ApiCall.getTools
          :: (((t0 :: ts0).map (processTool srv "dry-run-id" true)).flatten
              ++ [Event.log LogLine.successMsg]) := by
      simp [create_standard, toolsAndRest, afterTools, hg, hE, htool]
    refine ⟨?_, ?_, ?_, ?_, ?_⟩
    · rw [htrace]
      simp only [List.countP_cons, List.countP_append, hloop.1]
      simp [isMutCall]
    · rw [htrace]
      simp
    · intro t ht u hu
      rw [htrace]
      exact List.mem_cons_of_mem _ (List.mem_cons_of_mem _ (List.mem_cons_of_mem _
        (List.mem_cons_of_mem _ (List.mem_append_left _ (hloop.2.2 t ht u hu)))))
    · rw [htrace]
      simp only [List.countP_cons, List.countP_append, hloop.2.1]
      simp [isDryMutationLog]
      omega
    · simp [create_standard, toolsAndRest, afterTools, hg, hE]

/-- Server with one valid tool, no patterns and no failing request. -/
def singleToolServer : Server :=
  { createFails := false, createdId := some "std-1", getToolsFails := false,
    tools := [{ uuid := some "u1", name := some "t1" }],
    getPatternsFails := fun _ => false, patterns := fun _ => [],
    enableFails := fun _ => false, updateFails := fun _ => false,
    promoteFails := false, setDefaultFails := false }

/-- C4, counterexample to the claim as stated: on a server with one
valid tool and no patterns, the dry run emits 2 `[DRY RUN]` mutation
log lines (creation and tool enable), while the same input runs 4
mutating operations when not dry (create, enable, promote,
set-default): the skipped promote and set-default actions get no log
line, so the dry run does not emit one log line per would-be
mutation. -/
theorem C4_dry_run_counterexample :
    (create_standard singleToolServer "std" true).1.countP isDryMutationLog = 2
    ∧ (create_standard singleToolServer "std" false).1.countP isMutCall = 4
    ∧ ¬ ((create_standard singleToolServer "std" true).1.countP isDryMutationLog
          = (create_standard singleToolServer "std" false).1.countP isMutCall) := by
  refine ⟨by decide, by decide, by decide⟩

theorem C4_dry_run_witness :
    ((create_standard singleToolServer "std" true).1.countP isMutCall = 0)
    ∧ Event.call ApiCall.getTools ∈ (create_standard singleToolServer "std" true).1
    ∧ Event.call (ApiCall.getPatternsPaged "dry-run-id" "u1")
        ∈ (create_standard singleToolServer "std" true).1
    ∧ ((create_standard singleToolServer "std" true).1.countP isDryMutationLog = 2)
    ∧ (create_standard singleToolServer "std" true).2 = 0 := by
  have h := C4_dry_run singleToolServer "std" rfl (fun u => rfl)
    (fun t ht => ⟨"u1", "t1", by
      simp [singleToolServer] at ht
      simp [ht]⟩)
  refine ⟨h.1, h.2.1, ?_, ?_, h.2.2.2.2⟩
  · exact h.2.2.1 { uuid := some "u1", name := some "t1" } (by decide) "u1" rfl
  · have h4 := h.2.2.2.1
    simpa using h4

deriving instance DecidableEq for Except

/-- Example client configuration used for concrete checks. -/
def exampleConfig : ClientConfig :=
  { api_url := "https://app.codacy.com", api_token := "tok",
    provider := "gh", org_name := "acme" }

/-- C7, counterexample to the claim as stated: the URL issued for the
tool catalog contains neither the provider nor the organization (the
shared primitive does not attach those path segments — the one
organization-scoped endpoint that does contain them is built by the
operation itself), and a non-2xx status such as 304 does not raise: the
primitive raises only for 4xx/5xx statuses. -/
theorem C7_request_primitive_counterexample :
    strContains (requestUrl exampleConfig toolsEndpoint) "gh" = false
    ∧ strContains (requestUrl exampleConfig toolsEndpoint) "acme" = false
    ∧ strContains (requestUrl exampleConfig (createStandardEndpoint exampleConfig)) "gh" = true
    ∧ make_request (Transport.response 304 (some 1)) (0 : Nat) = Except.ok 1 := by
  refine ⟨by decide, by decide, by decide, by decide⟩

/-- C7 (amended): every operation goes through the shared primitive,
which attaches the API-token header, and on a transport failure or a
4xx/5xx status raises a typed error carrying the status and, when
present, the decoded error body; on any other response it returns the
decoded JSON body, or the empty map for an empty body.  The
organization and provider path segments are embedded in each
operation's endpoint rather than attached by the primitive, and the
global tool-catalog URL contains none (it does not depend on the
organization or provider at all). -/
theorem C7_request_primitive (J : Type) (e : J) (c : ClientConfig) :
    (("api-token", c.api_token) ∈ headers c)
    ∧ (make_request (Transport.failure : Transport J) e
        = Except.error ReqError.transport)
    ∧ (∀ (s : Nat) (b : Option J), raiseForStatusFails s = true →
        make_request (Transport.response s b) e
          = Except.error (ReqError.httpStatus s b))
    ∧ (∀ (s : Nat) (b : Option J), raiseForStatusFails s = false →
        make_request (Transport.response s b) e = Except.ok (b.getD e))
    ∧ (∀ s, raiseForStatusFails s = true ↔ (400 ≤ s ∧ s < 600))
    ∧ (createStandardEndpoint c
        = "api/v3/organizations/" ++ c.provider ++ "/" ++ c.org_name
            ++ "/coding-standards")
    ∧ (∀ c1 c2 : ClientConfig, c1.api_url = c2.api_url →
        requestUrl c1 toolsEndpoint = requestUrl c2 toolsEndpoint) := by
  refine ⟨by simp [headers], rfl, ?_, ?_, ?_, rfl, ?_⟩
  · intro s b h
    simp [make_request, h]
  · intro s b h
    simp [make_request, h]
  · intro s
    simp [raiseForStatusFails]
    omega
  · intro c1 c2 h
    simp [requestUrl, baseUrl, h]

theorem C7_request_primitive_witness :
    (("api-token", "tok") ∈ headers exampleConfig)
    ∧ make_request (Transport.response 500 (some 9)) (0 : Nat)
        = Except.error (ReqError.httpStatus 500 (some 9))
    ∧ make_request (Transport.response 200 none) (0 : Nat) = Except.ok 0 := by
  have h := C7_request_primitive Nat 0 exampleConfig
  exact ⟨h.1, h.2.2.1 500 (some 9) (by decide), h.2.2.2.1 200 none (by decide)⟩
